import Mathlib

/-!
Shallow embedding of the green-invest ESG scoring and benchmark pipeline
(src/src/models/esg_scorer.py, src/src/models/benchmark_generator.py,
src/src/data/data_integrator.py), with theorems settling the frozen claims.

Conventions of the embedding:
* Python floats become `ℚ` (all arithmetic in the scored paths is exact).
* The sqlite/pandas tables become lists of records inside a `DB` structure;
  `to_sql(..., if_exists='append')` is list append, `if_exists='replace'`
  replaces the whole table with the written frame's rows (pandas semantics).
* The transformer sentiment model in `analyze_sentiment` is an external
  collaborator; `score_company` is parameterised by an arbitrary sentiment
  function `sent : String → ℚ`.
* Python `str.lower` is per-character lowering of the character list
  (`lowerChars`), `keyword in text` is substring containment (`hasSub`),
  and `str.strip()` emptiness is emptiness of `stripChars`.
-/

/-- Boolean substring test on character lists: `hasSub needle hay` is the
embedding of Python's `needle in hay`. -/
def hasSub (needle : List Char) : List Char → Bool
  | [] => needle.isPrefixOf []
  | c :: rest => needle.isPrefixOf (c :: rest) || hasSub needle rest

/-- Embedding of Python `str.strip()` on a character list: drop whitespace
from both ends. -/
def stripChars (l : List Char) : List Char :=
  ((l.dropWhile Char.isWhitespace).reverse.dropWhile Char.isWhitespace).reverse

/-- `env_keywords` from `ESGScorer.classify_text_environmental`
(src/src/models/esg_scorer.py lines 52-55). -/
def env_keywords : List String :=
  ["climate", "carbon", "emission", "renewable", "sustainable", "green",
   "environment", "pollution", "waste", "recycle", "energy efficiency"]

/-- `social_keywords` from `ESGScorer.classify_text_social`
(src/src/models/esg_scorer.py lines 65-68). -/
def social_keywords : List String :=
  ["diversity", "inclusion", "community", "employee", "human rights", "fair wage",
   "health", "safety", "welfare", "education", "training", "equality"]

/-- `governance_keywords` from `ESGScorer.classify_text_governance`
(src/src/models/esg_scorer.py lines 78-81). -/
def governance_keywords : List String :=
  ["governance", "board", "executive", "compliance", "ethics", "risk management",
   "transparency", "accountability", "shareholder", "audit", "compensation",
   "responsibility"]

/-- Embedding of Python `text.lower()`: lower every character. -/
def lowerChars (text : String) : List Char :=
  text.toList.map Char.toLower

/-- `sum(1 for keyword in keywords if keyword in text_lower)`: the number of
keywords that occur (at least once) as a substring of the lowered text. -/
def keywordCount (keywords : List String) (text : String) : Nat :=
  (keywords.filter (fun k => hasSub k.toList (lowerChars text))).length

/-- `ESGScorer.classify_text_environmental` (lines 48-61):
`min(100, keyword_count * 10)`. -/
def classify_text_environmental (text : String) : Nat :=
  min 100 (keywordCount env_keywords text * 10)

/-- `ESGScorer.classify_text_social` (lines 63-74). -/
def classify_text_social (text : String) : Nat :=
  min 100 (keywordCount social_keywords text * 10)

/-- `ESGScorer.classify_text_governance` (lines 76-87). -/
def classify_text_governance (text : String) : Nat :=
  min 100 (keywordCount governance_keywords text * 10)

/-- A row of the `reports` table. -/
structure ReportRow where
  ticker : String
  report_text : String
deriving DecidableEq

/-- A row of the `news_content` table (only the columns the scorer reads). -/
structure NewsRow where
  ticker : String
  content : String
deriving DecidableEq

/-- A row of the `esg_scores` table / the dict built by `score_company`. -/
structure ESGScore where
  ticker : String
  environmental_score : ℚ
  social_score : ℚ
  governance_score : ℚ
  sentiment_score : ℚ
  overall_esg_score : ℚ
deriving DecidableEq

/-- A row of the `companies` table as written by `integrate_company_data`. -/
structure CompanyRow where
  ticker : String
  name : String
  sector : String
  industry : String
  country : String
  website : String
  employees : Int
  market_cap : Int
deriving DecidableEq

/-- A row of the `sector_benchmarks` table. -/
structure BenchmarkRow where
  sector : String
  environmental_benchmark : ℚ
  social_benchmark : ℚ
  governance_benchmark : ℚ
  overall_benchmark : ℚ
deriving DecidableEq

/-- A row of the `company_benchmark_comparisons` table, as built in
`generate_company_comparisons`. -/
structure ComparisonRow where
  ticker : String
  sector : String
  company_env_score : ℚ
  sector_env_benchmark : ℚ
  env_difference : ℚ
  company_social_score : ℚ
  sector_social_benchmark : ℚ
  social_difference : ℚ
  company_gov_score : ℚ
  sector_gov_benchmark : ℚ
  gov_difference : ℚ
  company_overall_score : ℚ
  sector_overall_benchmark : ℚ
  overall_difference : ℚ
deriving DecidableEq

/-- The persistent sqlite store, restricted to the tables the claims touch. -/
structure DB where
  companies : List CompanyRow
  news_content : List NewsRow
  reports : List ReportRow
  esg_scores : List ESGScore
  sector_benchmarks : List BenchmarkRow
  company_benchmark_comparisons : List ComparisonRow
deriving DecidableEq

/-- `report_df['report_text'].iloc[0] if not report_df.empty else ""`
for `SELECT report_text FROM reports WHERE ticker = t`. -/
def getReportText (db : DB) (t : String) : String :=
  match db.reports.filter (fun r => r.ticker == t) with
  | [] => ""
  | r :: _ => r.report_text

/-- `" ".join(news_df['content'].tolist()) if not news_df.empty else ""`
for `SELECT content FROM news_content WHERE ticker = t`. -/
def getNewsText (db : DB) (t : String) : String :=
  let rows := db.news_content.filter (fun n => n.ticker == t)
  if rows.isEmpty then "" else String.intercalate " " (rows.map (fun n => n.content))

/-- `combined_text = report_text + " " + news_text` (line 125). -/
def combinedText (db : DB) (t : String) : String :=
  getReportText db t ++ " " ++ getNewsText db t

/-- The all-50 default record returned when no text is available
(lines 129-136). -/
def neutralScore (t : String) : ESGScore :=
  { ticker := t
    environmental_score := 50
    social_score := 50
    governance_score := 50
    sentiment_score := 50
    overall_esg_score := 50 }

/-- The `scores` dict built on the scored path (lines 139-154):
classification scores, the sentiment value, and
`overall = env*0.4 + social*0.3 + gov*0.3`. -/
def scoredRecord (sent : String → ℚ) (t combined : String) : ESGScore :=
  { ticker := t
    environmental_score := (classify_text_environmental combined : ℚ)
    social_score := (classify_text_social combined : ℚ)
    governance_score := (classify_text_governance combined : ℚ)
    sentiment_score := sent combined
    overall_esg_score :=
      (classify_text_environmental combined : ℚ) * 0.4 +
      (classify_text_social combined : ℚ) * 0.3 +
      (classify_text_governance combined : ℚ) * 0.3 }

/-- `ESGScorer.score_company` (lines 111-164). Returns the scores dict and
the post-call store. The persist step (line 158) writes the one-row frame
with `if_exists='replace' if ticker in scores_df['ticker'].values else
'append'`; the membership test is against the frame just built, and pandas
`replace` drops the whole table before writing the frame's rows. -/
def score_company (sent : String → ℚ) (db : DB) (t : String) :
    Option ESGScore × DB :=
  let combined := combinedText db t
  if stripChars combined.toList = [] then
    (some (neutralScore t), db)
  else
    let r := scoredRecord sent t combined
    let newScores :=
      if t ∈ [r].map (fun x => x.ticker) then [r] else db.esg_scores ++ [r]
    (some r, { db with esg_scores := newScores })

/-- `ESGScorer.score_portfolio` (lines 166-175), with the per-ticker scoring
call abstracted as a state-threading `scorer` (in the source it is
`self.score_company`, whose internal exceptions surface as `None`):
loop over tickers, keep only truthy (non-`None`) results, in order. -/
def score_portfolio (scorer : DB → String → Option ESGScore × DB)
    (db : DB) : List String → List ESGScore × DB
  | [] => ([], db)
  | t :: rest =>
    let step := scorer db t
    let tail := score_portfolio scorer step.2 rest
    (match step.1 with
     | some s => s :: tail.1
     | none => tail.1, tail.2)

/-- The eleven fixed sector names of
`ESGBenchmarkGenerator.load_sector_benchmarks` (lines 16-20). -/
def sectors : List String :=
  ["Technology", "Healthcare", "Financial Services", "Consumer Cyclical",
   "Industrials", "Communication Services", "Energy", "Basic Materials",
   "Consumer Defensive", "Utilities", "Real Estate"]

/-- One benchmark row of `load_sector_benchmarks` (lines 38-51), given the
raw random draws `e`, `s`, `g` for the sector: clamp each to `[0,100]` via
`max(0, min(100, ·))`, then `overall = env*0.4 + social*0.3 + gov*0.3`. -/
def benchmarkRowFor (sector : String) (e s g : ℚ) : BenchmarkRow :=
  let e' := max 0 (min 100 e)
  let s' := max 0 (min 100 s)
  let g' := max 0 (min 100 g)
  { sector := sector
    environmental_benchmark := e'
    social_benchmark := s'
    governance_benchmark := g'
    overall_benchmark := e' * 0.4 + s' * 0.3 + g' * 0.3 }

/-- `ESGBenchmarkGenerator.load_sector_benchmarks` (lines 9-59), with the
unseeded normal draws abstracted as an arbitrary `draw` function giving the
three raw scores per sector (the distribution parameters affect only the
draws, not the clamping/weighting logic). The frame is saved with
`if_exists='replace'`: the table becomes exactly the generated rows. -/
def load_sector_benchmarks (draw : String → ℚ × ℚ × ℚ) (db : DB) :
    List BenchmarkRow × DB :=
  let rows := sectors.map (fun sec =>
    benchmarkRowFor sec (draw sec).1 (draw sec).2.1 (draw sec).2.2)
  (rows, { db with sector_benchmarks := rows })

/-- Column-wise mean of a benchmark column, as `benchmarks.mean()` computes
it for each numeric column. -/
def benchColMean (f : BenchmarkRow → ℚ) (bs : List BenchmarkRow) : ℚ :=
  (bs.map f).sum / bs.length

/-- The comparison dict built for one merged company row
(`generate_company_comparisons` lines 92-124): take the sector's benchmark
row if present, else the column-wise mean of all benchmark rows, and store
each company score, the benchmark used, and their signed difference. -/
def comparisonFor (bs : List BenchmarkRow) (s : ESGScore) (c : CompanyRow) :
    ComparisonRow :=
  let be := match bs.filter (fun b => b.sector == c.sector) with
    | [] => benchColMean (fun b => b.environmental_benchmark) bs
    | b :: _ => b.environmental_benchmark
  let bsoc := match bs.filter (fun b => b.sector == c.sector) with
    | [] => benchColMean (fun b => b.social_benchmark) bs
    | b :: _ => b.social_benchmark
  let bg := match bs.filter (fun b => b.sector == c.sector) with
    | [] => benchColMean (fun b => b.governance_benchmark) bs
    | b :: _ => b.governance_benchmark
  let bo := match bs.filter (fun b => b.sector == c.sector) with
    | [] => benchColMean (fun b => b.overall_benchmark) bs
    | b :: _ => b.overall_benchmark
  { ticker := s.ticker
    sector := c.sector
    company_env_score := s.environmental_score
    sector_env_benchmark := be
    env_difference := s.environmental_score - be
    company_social_score := s.social_score
    sector_social_benchmark := bsoc
    social_difference := s.social_score - bsoc
    company_gov_score := s.governance_score
    sector_gov_benchmark := bg
    gov_difference := s.governance_score - bg
    company_overall_score := s.overall_esg_score
    sector_overall_benchmark := bo
    overall_difference := s.overall_esg_score - bo }

/-- `esg_scores.merge(companies, on='ticker')`: inner join on ticker,
left-frame order preserved. -/
def mergeOnTicker (scores : List ESGScore) (companies : List CompanyRow) :
    List (ESGScore × CompanyRow) :=
  scores.flatMap (fun s =>
    (companies.filter (fun c => c.ticker == s.ticker)).map (fun c => (s, c)))

/-- `ESGBenchmarkGenerator.generate_company_comparisons` (lines 61-136) with
the `sector_benchmarks` table already present in the store (the fallback
that regenerates it randomly when the read fails is abstracted away). The
comparisons frame is saved with `if_exists='replace'`. -/
def generate_company_comparisons (db : DB) : List ComparisonRow × DB :=
  let merged := mergeOnTicker db.esg_scores db.companies
  let comps := merged.map (fun p => comparisonFor db.sector_benchmarks p.1 p.2)
  (comps, { db with company_benchmark_comparisons := comps })

/-- The decoded `{ticker}_company_info.json` profile, with the keys
`integrate_company_data` reads via `.get(key, default)`. -/
structure CompanyInfo where
  shortName : Option String
  sector : Option String
  industry : Option String
  country : Option String
  website : Option String
  fullTimeEmployees : Option Int
  marketCap : Option Int
deriving DecidableEq

/-- The `company_data` dict of `integrate_company_data` (lines 27-36). -/
def companyRowOf (t : String) (info : CompanyInfo) : CompanyRow :=
  { ticker := t
    name := info.shortName.getD ""
    sector := info.sector.getD ""
    industry := info.industry.getD ""
    country := info.country.getD ""
    website := info.website.getD ""
    employees := info.fullTimeEmployees.getD 0
    market_cap := info.marketCap.getD 0 }

/-- `DataIntegrator.integrate_company_data` (src/src/data/data_integrator.py
lines 17-81), restricted to the tables in `DB`. Each raw file is modelled as
an `Option` (`none` = file absent). Every present section is written with
`if_exists='append'`; the news-content rows get `['ticker'] = ticker` set.
Returns `True` on success. -/
def integrate_company_data (db : DB) (t : String)
    (profile : Option CompanyInfo) (newsContentFile : Option (List String))
    (reportFile : Option String) : Bool × DB :=
  let db1 := match profile with
    | some info => { db with companies := db.companies ++ [companyRowOf t info] }
    | none => db
  let db2 := match newsContentFile with
    | some rows =>
      { db1 with news_content :=
          db1.news_content ++ rows.map (fun c => { ticker := t, content := c }) }
    | none => db1
  let db3 := match reportFile with
    | some txt =>
      { db2 with reports := db2.reports ++ [{ ticker := t, report_text := txt }] }
    | none => db2
  (true, db3)

/-- Occurrence count with multiplicity: the number of positions of `hay` at
which `needle` occurs as a substring. This definition follows the claim's
words ("a keyword appearing k times contributes k hits"), not the source; it
exists to compare the source's presence-based count against. -/
def occCount (needle : List Char) : List Char → Nat
  | [] => if needle.isPrefixOf ([] : List Char) then 1 else 0
  | c :: rest => (if needle.isPrefixOf (c :: rest) then 1 else 0) + occCount needle rest

/-- Hit count as the claim words it: total substring occurrences, with
multiplicity, of every keyword of the vocabulary in the lowered text. -/
def specKeywordHits (keywords : List String) (text : String) : Nat :=
  (keywords.map (fun k => occCount k.toList (lowerChars text))).sum

/-- A store with every table empty (fresh database). -/
def emptyDB : DB :=
  { companies := [], news_content := [], reports := [], esg_scores := [],
    sector_benchmarks := [], company_benchmark_comparisons := [] }

/-- Store holding ingested report text for tickers "A" and "B". -/
def c1DB0 : DB :=
  { emptyDB with reports :=
      [{ ticker := "A", report_text := "climate carbon" },
       { ticker := "B", report_text := "board audit" }] }

/-- The store after scoring "A" on `c1DB0`. -/
def c1DB1 : DB := (score_company (fun _ => (50 : ℚ)) c1DB0 "A").2

/-- The store after scoring "A" and then "B". -/
def c1DB2 : DB := (score_company (fun _ => (50 : ℚ)) c1DB1 "B").2

/-- A constant neutral sentiment collaborator. -/
def wSent : String → ℚ := fun _ => 50

/-- A second sentiment collaborator, disagreeing with `wSent` everywhere. -/
def wSentZero : String → ℚ := fun _ => 0

/-- Store with one ingested report for ticker "AAA". -/
def c3DB : DB :=
  { emptyDB with reports := [{ ticker := "AAA", report_text := "climate carbon board" }] }

/-- The record `score_company` produces for "AAA" on `c3DB` under `wSent`. -/
def c3Rec : ESGScore := scoredRecord wSent "AAA" (combinedText c3DB "AAA")

/-- The same record under the `wSentZero` sentiment collaborator. -/
def c3RecZero : ESGScore := scoredRecord wSentZero "AAA" (combinedText c3DB "AAA")

/-- Store with text ingested only for ticker "AAA" (used to probe scoring a
different, text-less ticker). -/
def c4DB : DB :=
  { emptyDB with
      reports := [{ ticker := "AAA", report_text := "climate" }],
      news_content := [{ ticker := "AAA", content := "green energy" }],
      esg_scores := [neutralScore "OLD"] }

/-- A concrete scored company row. -/
def c5Score : ESGScore :=
  { ticker := "T", environmental_score := 20, social_score := 0,
    governance_score := 10, sentiment_score := 50, overall_esg_score := 11 }

/-- A concrete company in the Technology sector. -/
def c5Comp : CompanyRow :=
  { ticker := "T", name := "TechCo", sector := "Technology", industry := "",
    country := "", website := "", employees := 0, market_cap := 0 }

/-- A concrete Technology benchmark row. -/
def c5Bench : BenchmarkRow :=
  { sector := "Technology", environmental_benchmark := 70,
    social_benchmark := 80, governance_benchmark := 75,
    overall_benchmark := 74.5 }

/-- Store with one scored Technology company and its sector benchmark. -/
def c5DB : DB :=
  { emptyDB with
      companies := [c5Comp],
      esg_scores := [c5Score],
      sector_benchmarks := [c5Bench] }

/-- The comparison row generated for `c5Comp` on `c5DB`. -/
def c5Row : ComparisonRow := comparisonFor c5DB.sector_benchmarks c5Score c5Comp

/-- A scored company in a probe sector. -/
def c6Score : ESGScore :=
  { ticker := "X", environmental_score := 40, social_score := 50,
    governance_score := 60, sentiment_score := 50, overall_esg_score := 49 }

/-- A company whose sector "Aerospace" is absent from the benchmark table. -/
def c6Comp : CompanyRow :=
  { ticker := "X", name := "ProbeCo", sector := "Aerospace", industry := "",
    country := "", website := "", employees := 0, market_cap := 0 }

/-- Store whose benchmark table covers two sectors, neither "Aerospace". -/
def c6DB : DB :=
  { emptyDB with
      companies := [c6Comp],
      esg_scores := [c6Score],
      sector_benchmarks :=
        [c5Bench,
         { sector := "Energy", environmental_benchmark := 50,
           social_benchmark := 60, governance_benchmark := 62,
           overall_benchmark := 56.6 }] }

/-- A scorer that fails on every ticker except "B" (models `score_company`
raising internally on "A" and succeeding on "B"). -/
def c7Scorer : DB → String → Option ESGScore × DB := fun db t =>
  if t == "B" then (some (neutralScore "B"), db) else (none, db)

/-- A degenerate draw: raw scores out of range on both sides. -/
def c8Draw : String → ℚ × ℚ × ℚ := fun _ => (200, -7, 50)

/-- The benchmark row the generator builds for Technology under `c8Draw`. -/
def c8Row : BenchmarkRow := benchmarkRowFor "Technology" 200 (-7) 50

/-- A decoded company profile for "MSFT". -/
def c9Info : CompanyInfo :=
  { shortName := some "Microsoft", sector := some "Technology",
    industry := some "Software", country := some "United States",
    website := some "microsoft.com", fullTimeEmployees := some 221000,
    marketCap := some 3000000 }

/-- The store after one integration run for "MSFT" from an empty store. -/
def c9DB1 : DB := (integrate_company_data emptyDB "MSFT" (some c9Info) none none).2

/-- The store after re-running the same integration for "MSFT". -/
def c9DB2 : DB := (integrate_company_data c9DB1 "MSFT" (some c9Info) none none).2

example : classify_text_environmental "Our carbon emission and renewable energy programs" = 30 := by decide

example : classify_text_environmental "climate climate" = 10 := by decide

example : specKeywordHits env_keywords "climate climate" = 2 := by decide

/-- `isPrefixOf` on character lists agrees with the existence of a suffix. -/
theorem isPrefixOf_iff_ex (n : List Char) : ∀ h : List Char,
    n.isPrefixOf h = true ↔ ∃ r, h = n ++ r := by
  induction n with
  | nil =>
    intro h
    constructor
    · intro _
      exact ⟨h, rfl⟩
    · intro _
      cases h <;> rfl
  | cons a as ih =>
    intro h
    cases h with
    | nil => simp [List.isPrefixOf]
    | cons b bs =>
      simp only [List.isPrefixOf, Bool.and_eq_true, beq_iff_eq, ih bs,
        List.cons_append, List.cons.injEq]
      constructor
      · rintro ⟨hab, r, hr⟩
        exact ⟨r, hab.symm, hr⟩
      · rintro ⟨r, hba, hr⟩
        exact ⟨hba.symm, r, hr⟩

/-- `hasSub needle hay` holds exactly when `needle` occurs somewhere inside
`hay`: the Boolean substring test means real substring occurrence. -/
theorem hasSub_iff_ex (n : List Char) : ∀ h : List Char,
    hasSub n h = true ↔ ∃ l r, h = l ++ n ++ r := by
  intro h
  induction h with
  | nil =>
    simp only [hasSub, isPrefixOf_iff_ex]
    constructor
    · rintro ⟨r, hr⟩
      exact ⟨[], r, by simpa using hr⟩
    · rintro ⟨l, r, hr⟩
      exact ⟨r, by
        rcases List.append_eq_nil.mp (List.append_eq_nil.mp hr.symm).1 with ⟨-, h2⟩
        rcases List.append_eq_nil.mp (List.append_eq_nil.mp hr.symm).1 with ⟨h1, -⟩
        simp [h1] at hr
        simpa using hr⟩
  | cons c rest ih =>
    simp only [hasSub, Bool.or_eq_true, isPrefixOf_iff_ex, ih]
    constructor
    · rintro (⟨r, hr⟩ | ⟨l, r, hr⟩)
      · exact ⟨[], r, by simpa using hr⟩
      · exact ⟨c :: l, r, by simp [hr]⟩
    · rintro ⟨l, r, hr⟩
      cases l with
      | nil =>
        exact Or.inl ⟨r, by simpa using hr⟩
      | cons x xs =>
        refine Or.inr ⟨xs, r, ?_⟩
        have := (List.cons.injEq .. ▸ hr : c = x ∧ rest = (xs ++ n) ++ r)
        simpa using this.2

/-- On the neutral path (stripped combined text empty) `score_company`
returns the all-50 record and leaves the store untouched. -/
theorem score_company_strip_nil (sent : String → ℚ) (db : DB) (t : String)
    (h : stripChars (combinedText db t).toList = []) :
    score_company sent db t = (some (neutralScore t), db) := by
  unfold score_company
  rw [if_pos h]

/-- On the scored path `score_company` returns the scored record and
replaces the whole `esg_scores` table with that single row (the frame
membership test at line 158 is always true, so `if_exists='replace'`
always fires). -/
theorem score_company_strip_ne (sent : String → ℚ) (db : DB) (t : String)
    (h : ¬ stripChars (combinedText db t).toList = []) :
    score_company sent db t =
      (some (scoredRecord sent t (combinedText db t)),
       { db with esg_scores := [scoredRecord sent t (combinedText db t)] }) := by
  unfold score_company
  rw [if_neg h]
  simp [scoredRecord]

/-- If the ticker has no `reports` row, the report text read is empty. -/
theorem getReportText_of_no_row (db : DB) (t : String)
    (h : ∀ r ∈ db.reports, r.ticker ≠ t) : getReportText db t = "" := by
  have hf : db.reports.filter (fun r => r.ticker == t) = [] := by
    apply List.filter_eq_nil_iff.mpr
    intro a ha
    simpa using h a ha
  unfold getReportText
  rw [hf]

/-- If the ticker has no `news_content` row, the news text read is empty. -/
theorem getNewsText_of_no_row (db : DB) (t : String)
    (h : ∀ n ∈ db.news_content, n.ticker ≠ t) : getNewsText db t = "" := by
  have hf : db.news_content.filter (fun n => n.ticker == t) = [] := by
    apply List.filter_eq_nil_iff.mpr
    intro a ha
    simpa using h a ha
  unfold getNewsText
  rw [hf]
  rfl

/-- With neither table contributing text, the combined blob is one space. -/
theorem combinedText_of_no_rows (db : DB) (t : String)
    (h1 : ∀ r ∈ db.reports, r.ticker ≠ t)
    (h2 : ∀ n ∈ db.news_content, n.ticker ≠ t) :
    combinedText db t = " " := by
  unfold combinedText
  rw [getReportText_of_no_row db t h1, getNewsText_of_no_row db t h2]
  rfl

/-- C2, counterexample: on the blob "climate climate" the source's
environmental classifier returns 10 (one distinct keyword present), not
`min(100, 10 * occurrence_count) = 20` as the claim states, since the code
counts each keyword at most once regardless of how often it occurs. -/
theorem c2_occurrence_counterexample :
    ¬ (classify_text_environmental "climate climate" =
        min 100 (10 * specKeywordHits env_keywords "climate climate")) := by
  decide

/-- C2 (amended): each classifier returns `min(100, 10 * hits)` where `hits`
is the number of keywords of the respective fixed vocabulary that occur at
least once as a case-insensitive substring of the blob (each keyword
contributes at most one hit, not one per occurrence), and the score is at
most 100; `hasSub` is exactly substring occurrence in the lowered text. -/
theorem c2_keyword_scoring (text : String) :
    (classify_text_environmental text =
        min 100 (10 * (env_keywords.filter
          (fun k => hasSub k.toList (lowerChars text))).length)
      ∧ classify_text_environmental text ≤ 100)
    ∧ (classify_text_social text =
        min 100 (10 * (social_keywords.filter
          (fun k => hasSub k.toList (lowerChars text))).length)
      ∧ classify_text_social text ≤ 100)
    ∧ (classify_text_governance text =
        min 100 (10 * (governance_keywords.filter
          (fun k => hasSub k.toList (lowerChars text))).length)
      ∧ classify_text_governance text ≤ 100)
    ∧ ∀ k : String, hasSub k.toList (lowerChars text) = true ↔
        ∃ l r, lowerChars text = l ++ k.toList ++ r := by
  refine ⟨⟨?_, ?_⟩, ⟨?_, ?_⟩, ⟨?_, ?_⟩, fun k => hasSub_iff_ex k.toList (lowerChars text)⟩
  · simp [classify_text_environmental, keywordCount, Nat.mul_comm]
  · exact Nat.min_le_left _ _
  · simp [classify_text_social, keywordCount, Nat.mul_comm]
  · exact Nat.min_le_left _ _
  · simp [classify_text_governance, keywordCount, Nat.mul_comm]
  · exact Nat.min_le_left _ _

/-- C1, code bug: after successfully scoring "A" and then "B" (both with
ingested text), the persisted `esg_scores` table holds one row for "B" but
"A"'s previously persisted row has been deleted — the persist step replaces
the whole table with the single new row, because the `'replace' if ticker in
scores_df['ticker'].values else 'append'` test at esg_scorer.py line 158
checks the freshly built one-row frame (always true) and pandas `replace`
drops the entire table. The spec's per-ticker replacement is never what the
code does. -/
theorem c1_persist_wipes_other_tickers :
    (c1DB1.esg_scores.filter (fun r => r.ticker == "A")).length = 1 ∧
    (c1DB2.esg_scores.filter (fun r => r.ticker == "A")).length = 0 ∧
    (c1DB2.esg_scores.filter (fun r => r.ticker == "B")).length = 1 := by
  decide

/-- C3: every record returned by `score_company` has
`overall_esg_score = 0.4*env + 0.3*social + 0.3*gov` exactly, and the
overall score does not depend on the sentiment collaborator (sentiment is
computed and stored but excluded from the weighted total). -/
theorem c3_overall_weighting (sent sent' : String → ℚ) (db : DB) (t : String)
    (r r' : ESGScore) (db1 db1' : DB)
    (h : score_company sent db t = (some r, db1))
    (h' : score_company sent' db t = (some r', db1')) :
    r.overall_esg_score = 0.4 * r.environmental_score
        + 0.3 * r.social_score + 0.3 * r.governance_score
    ∧ r'.overall_esg_score = r.overall_esg_score := by
  by_cases hc : stripChars (combinedText db t).toList = []
  · rw [score_company_strip_nil sent db t hc] at h
    rw [score_company_strip_nil sent' db t hc] at h'
    simp only [Prod.mk.injEq, Option.some.injEq] at h h'
    rw [← h.1, ← h'.1]
    norm_num [neutralScore]
  · rw [score_company_strip_ne sent db t hc] at h
    rw [score_company_strip_ne sent' db t hc] at h'
    simp only [Prod.mk.injEq, Option.some.injEq] at h h'
    rw [← h.1, ← h'.1]
    constructor
    · simp only [scoredRecord]
      ring
    · rfl

/-- Witness for C3 at a concrete store and two sentiment collaborators. -/
theorem c3_overall_weighting_witness :
    c3Rec.overall_esg_score = 0.4 * c3Rec.environmental_score
        + 0.3 * c3Rec.social_score + 0.3 * c3Rec.governance_score
    ∧ c3RecZero.overall_esg_score = c3Rec.overall_esg_score :=
  c3_overall_weighting wSent wSentZero c3DB "AAA" c3Rec c3RecZero _ _
    (score_company_strip_ne wSent c3DB "AAA" (by decide))
    (score_company_strip_ne wSentZero c3DB "AAA" (by decide))

/-- C4: scoring a ticker with no `reports` row and no `news_content` row
returns the fixed all-50 neutral record and does not fail. -/
theorem c4_neutral_default (sent : String → ℚ) (db : DB) (t : String)
    (h1 : ∀ r ∈ db.reports, r.ticker ≠ t)
    (h2 : ∀ n ∈ db.news_content, n.ticker ≠ t) :
    (score_company sent db t).1 = some (neutralScore t)
    ∧ (neutralScore t).ticker = t
    ∧ (neutralScore t).environmental_score = 50
    ∧ (neutralScore t).social_score = 50
    ∧ (neutralScore t).governance_score = 50
    ∧ (neutralScore t).sentiment_score = 50
    ∧ (neutralScore t).overall_esg_score = 50 := by
  have hc : stripChars (combinedText db t).toList = [] := by
    rw [combinedText_of_no_rows db t h1 h2]
    decide
  rw [score_company_strip_nil sent db t hc]
  exact ⟨rfl, rfl, rfl, rfl, rfl, rfl, rfl⟩

/-- Witness for C4: scoring "ZZZ" on a store whose text all belongs to
"AAA" yields the neutral record. -/
theorem c4_neutral_default_witness :
    (score_company wSent c4DB "ZZZ").1 = some (neutralScore "ZZZ")
    ∧ (neutralScore "ZZZ").ticker = "ZZZ"
    ∧ (neutralScore "ZZZ").environmental_score = 50
    ∧ (neutralScore "ZZZ").social_score = 50
    ∧ (neutralScore "ZZZ").governance_score = 50
    ∧ (neutralScore "ZZZ").sentiment_score = 50
    ∧ (neutralScore "ZZZ").overall_esg_score = 50 :=
  c4_neutral_default wSent c4DB "ZZZ" (by decide) (by decide)

/-- C10: on the neutral-default path (no report row, no news row for the
ticker) `score_company` writes nothing: the `esg_scores` table — indeed the
whole store — is exactly as before the call. -/
theorem c10_neutral_path_no_write (sent : String → ℚ) (db : DB) (t : String)
    (h1 : ∀ r ∈ db.reports, r.ticker ≠ t)
    (h2 : ∀ n ∈ db.news_content, n.ticker ≠ t) :
    ((score_company sent db t).2).esg_scores = db.esg_scores
    ∧ (score_company sent db t).2 = db := by
  have hc : stripChars (combinedText db t).toList = [] := by
    rw [combinedText_of_no_rows db t h1 h2]
    decide
  rw [score_company_strip_nil sent db t hc]
  exact ⟨rfl, rfl⟩

/-- Witness for C10: scoring text-less "ZZZ" leaves the store (with its
pre-existing score row) untouched. -/
theorem c10_neutral_path_no_write_witness :
    ((score_company wSent c4DB "ZZZ").2).esg_scores = c4DB.esg_scores
    ∧ (score_company wSent c4DB "ZZZ").2 = c4DB :=
  c10_neutral_path_no_write wSent c4DB "ZZZ" (by decide) (by decide)

/-- When the company's sector has no benchmark row, `comparisonFor` uses the
column-wise mean of all benchmark rows for every dimension. -/
theorem comparisonFor_of_missing_sector (bs : List BenchmarkRow)
    (s : ESGScore) (c : CompanyRow)
    (h : bs.filter (fun b => b.sector == c.sector) = []) :
    (comparisonFor bs s c).sector_env_benchmark
        = benchColMean (fun b => b.environmental_benchmark) bs
    ∧ (comparisonFor bs s c).sector_social_benchmark
        = benchColMean (fun b => b.social_benchmark) bs
    ∧ (comparisonFor bs s c).sector_gov_benchmark
        = benchColMean (fun b => b.governance_benchmark) bs
    ∧ (comparisonFor bs s c).sector_overall_benchmark
        = benchColMean (fun b => b.overall_benchmark) bs := by
  simp [comparisonFor, h, benchColMean]

/-- C5: every emitted comparison row stores, for each of the four
dimensions, a difference equal to the company score minus the sector
benchmark used for that row. -/
theorem c5_difference_invariant (db : DB) (row : ComparisonRow)
    (h : row ∈ (generate_company_comparisons db).1) :
    row.env_difference = row.company_env_score - row.sector_env_benchmark
    ∧ row.social_difference = row.company_social_score - row.sector_social_benchmark
    ∧ row.gov_difference = row.company_gov_score - row.sector_gov_benchmark
    ∧ row.overall_difference = row.company_overall_score - row.sector_overall_benchmark := by
  simp only [generate_company_comparisons] at h
  rw [List.mem_map] at h
  obtain ⟨p, -, rfl⟩ := h
  exact ⟨rfl, rfl, rfl, rfl⟩

/-- Witness for C5 on a concrete one-company store. -/
theorem c5_difference_invariant_witness :
    c5Row.env_difference = c5Row.company_env_score - c5Row.sector_env_benchmark
    ∧ c5Row.social_difference = c5Row.company_social_score - c5Row.sector_social_benchmark
    ∧ c5Row.gov_difference = c5Row.company_gov_score - c5Row.sector_gov_benchmark
    ∧ c5Row.overall_difference = c5Row.company_overall_score - c5Row.sector_overall_benchmark :=
  c5_difference_invariant c5DB c5Row (by
    simp only [generate_company_comparisons]
    exact List.mem_map.mpr ⟨(c5Score, c5Comp), by decide, rfl⟩)

/-- C6: a company whose sector has no row in the benchmark table gets a
comparison row, and the benchmark values used in it are the column-wise
means (sum divided by row count) of all benchmark rows. -/
theorem c6_missing_sector_mean_fallback (db : DB) (s : ESGScore)
    (c : CompanyRow) (hs : s ∈ db.esg_scores) (hc : c ∈ db.companies)
    (ht : c.ticker = s.ticker)
    (hmiss : db.sector_benchmarks.filter (fun b => b.sector == c.sector) = [])
    (_hne : db.sector_benchmarks ≠ []) :
    comparisonFor db.sector_benchmarks s c ∈ (generate_company_comparisons db).1
    ∧ (comparisonFor db.sector_benchmarks s c).sector_env_benchmark
        = (db.sector_benchmarks.map (fun b => b.environmental_benchmark)).sum
            / db.sector_benchmarks.length
    ∧ (comparisonFor db.sector_benchmarks s c).sector_social_benchmark
        = (db.sector_benchmarks.map (fun b => b.social_benchmark)).sum
            / db.sector_benchmarks.length
    ∧ (comparisonFor db.sector_benchmarks s c).sector_gov_benchmark
        = (db.sector_benchmarks.map (fun b => b.governance_benchmark)).sum
            / db.sector_benchmarks.length
    ∧ (comparisonFor db.sector_benchmarks s c).sector_overall_benchmark
        = (db.sector_benchmarks.map (fun b => b.overall_benchmark)).sum
            / db.sector_benchmarks.length := by
  obtain ⟨h1, h2, h3, h4⟩ := comparisonFor_of_missing_sector db.sector_benchmarks s c hmiss
  refine ⟨?_, h1, h2, h3, h4⟩
  simp only [generate_company_comparisons]
  refine List.mem_map.mpr ⟨(s, c), ?_, rfl⟩
  refine List.mem_flatMap.mpr ⟨s, hs, ?_⟩
  refine List.mem_map.mpr ⟨c, List.mem_filter.mpr ⟨hc, ?_⟩, rfl⟩
  simp [ht]

/-- Witness for C6 with the probe sector "Aerospace", absent from a
two-row benchmark table. -/
theorem c6_missing_sector_mean_fallback_witness :
    comparisonFor c6DB.sector_benchmarks c6Score c6Comp
        ∈ (generate_company_comparisons c6DB).1
    ∧ (comparisonFor c6DB.sector_benchmarks c6Score c6Comp).sector_env_benchmark
        = (c6DB.sector_benchmarks.map (fun b => b.environmental_benchmark)).sum
            / c6DB.sector_benchmarks.length
    ∧ (comparisonFor c6DB.sector_benchmarks c6Score c6Comp).sector_social_benchmark
        = (c6DB.sector_benchmarks.map (fun b => b.social_benchmark)).sum
            / c6DB.sector_benchmarks.length
    ∧ (comparisonFor c6DB.sector_benchmarks c6Score c6Comp).sector_gov_benchmark
        = (c6DB.sector_benchmarks.map (fun b => b.governance_benchmark)).sum
            / c6DB.sector_benchmarks.length
    ∧ (comparisonFor c6DB.sector_benchmarks c6Score c6Comp).sector_overall_benchmark
        = (c6DB.sector_benchmarks.map (fun b => b.overall_benchmark)).sum
            / c6DB.sector_benchmarks.length :=
  c6_missing_sector_mean_fallback c6DB c6Score c6Comp
    (List.mem_singleton.mpr rfl) (List.mem_singleton.mpr rfl) rfl
    (by decide) (by decide)

/-- C7: the portfolio loop never aborts on a failed (`None`) scoring call:
the failed ticker is skipped and the result still contains every later
success; in particular on ["A", "B"] with "A" failing and "B" succeeding
with record `s`, the result is exactly [s]. -/
theorem c7_portfolio_skips_failures
    (scorer : DB → String → Option ESGScore × DB) (db dbA : DB)
    (a : String) (rest : List String) (h : scorer db a = (none, dbA)) :
    (score_portfolio scorer db (a :: rest)).1 = (score_portfolio scorer dbA rest).1
    ∧ ∀ b s dbB, rest = [b] → scorer dbA b = (some s, dbB) →
        (score_portfolio scorer db (a :: rest)).1 = [s] := by
  constructor
  · simp [score_portfolio, h]
  · rintro b s dbB rfl hB
    simp [score_portfolio, h, hB]

/-- Witness for C7: scoring ["A", "B"] where "A" fails internally still
returns "B"'s record. -/
theorem c7_portfolio_skips_failures_witness :
    (score_portfolio c7Scorer emptyDB ["A", "B"]).1 = [neutralScore "B"] :=
  (c7_portfolio_skips_failures c7Scorer emptyDB emptyDB "A" ["B"]
    (by decide)).2 "B" (neutralScore "B") emptyDB rfl (by decide)

/-- C8: for every possible random draw, every generated benchmark row has
its three dimension scores clamped into [0,100] and its overall equal to
`0.4*env + 0.3*social + 0.3*gov` of the clamped values. -/
theorem c8_benchmarks_clamped (draw : String → ℚ × ℚ × ℚ) (db : DB)
    (row : BenchmarkRow) (h : row ∈ (load_sector_benchmarks draw db).1) :
    0 ≤ row.environmental_benchmark ∧ row.environmental_benchmark ≤ 100
    ∧ 0 ≤ row.social_benchmark ∧ row.social_benchmark ≤ 100
    ∧ 0 ≤ row.governance_benchmark ∧ row.governance_benchmark ≤ 100
    ∧ row.overall_benchmark = 0.4 * row.environmental_benchmark
        + 0.3 * row.social_benchmark + 0.3 * row.governance_benchmark := by
  simp only [load_sector_benchmarks] at h
  rw [List.mem_map] at h
  obtain ⟨sec, -, rfl⟩ := h
  simp only [benchmarkRowFor]
  refine ⟨le_max_left _ _, max_le (by norm_num) (min_le_left _ _),
    le_max_left _ _, max_le (by norm_num) (min_le_left _ _),
    le_max_left _ _, max_le (by norm_num) (min_le_left _ _), by ring⟩

/-- Witness for C8 with an out-of-range draw (200, -7, 50). -/
theorem c8_benchmarks_clamped_witness :
    0 ≤ c8Row.environmental_benchmark ∧ c8Row.environmental_benchmark ≤ 100
    ∧ 0 ≤ c8Row.social_benchmark ∧ c8Row.social_benchmark ≤ 100
    ∧ 0 ≤ c8Row.governance_benchmark ∧ c8Row.governance_benchmark ≤ 100
    ∧ c8Row.overall_benchmark = 0.4 * c8Row.environmental_benchmark
        + 0.3 * c8Row.social_benchmark + 0.3 * c8Row.governance_benchmark :=
  c8_benchmarks_clamped c8Draw emptyDB c8Row (by
    simp only [load_sector_benchmarks]
    exact List.mem_map.mpr ⟨"Technology", by decide, rfl⟩)

/-- C9, counterexample: integrating "MSFT" twice from an empty store leaves
two `companies` rows for "MSFT" — the integrator writes with append
semantics (data_integrator.py line 40), so re-running accumulates history
instead of replacing the prior row. -/
theorem c9_rerun_accumulates_rows :
    (c9DB1.companies.filter (fun c => c.ticker == "MSFT")).length = 1
    ∧ (c9DB2.companies.filter (fun c => c.ticker == "MSFT")).length = 2 := by
  decide

/-- C9 (amended): when the profile file exists, `integrate_company_data(t)`
appends exactly one `companies` row for `t` built from the profile and
returns success; the row count for `t` grows by one on every run (so a
first run on a fresh store yields exactly one row, and re-running
accumulates rows rather than replacing them). -/
theorem c9_integration_appends (db : DB) (t : String) (info : CompanyInfo)
    (nf : Option (List String)) (rf : Option String) :
    ((integrate_company_data db t (some info) nf rf).2).companies
        = db.companies ++ [companyRowOf t info]
    ∧ (((integrate_company_data db t (some info) nf rf).2).companies.filter
        (fun c => c.ticker == t)).length
        = (db.companies.filter (fun c => c.ticker == t)).length + 1
    ∧ (integrate_company_data db t (some info) nf rf).1 = true := by
  have hcomp : ((integrate_company_data db t (some info) nf rf).2).companies
      = db.companies ++ [companyRowOf t info] := by
    cases nf <;> cases rf <;> rfl
  refine ⟨hcomp, ?_, ?_⟩
  · rw [hcomp]
    simp [List.filter_append, companyRowOf]
  · cases nf <;> cases rf <;> rfl
